import Mathlib

/-!
Shallow embedding of the ChronOBS clock-synchronization tool
(`src/utils/helpers.py`, `src/utils/riot.py`, `src/ui/views.py`,
`src/app.py`, `src/mqtt/client.py`) and proofs about its
roster bookkeeping, sync relay and inbound message handling.

Conventions of the embedding:
* Python strings are Lean `String`s (lists of characters); the Python string
  methods used by the code (`strip`, `upper`, `split("/")`, `isalnum`,
  `int(...)`) are re-defined below.  `str.isalnum`/`str.upper` are modelled at
  the ASCII fragment (Lean's `Char.isAlphanum`/`Char.toUpper`); theorems that
  depend on them carry an explicit ASCII hypothesis.
* A decoded JSON payload is a `JVal`; `json.loads` either raises
  `json.JSONDecodeError` (represented by `Payload.malformed`, which the
  handlers catch) or yields a value (`Payload.valid`).  The handlers never
  inspect the elements of a JSON array, so arrays are a single constructor.
* Handlers return the list of MQTT publishes they perform, the list of calls
  to the local time-application sink (`set_time` in `utils/riot.py`), and the
  Python exception (if any) escaping the handler.  Effects listed are those
  performed before any raise.
* The authoritative time source (`get_current_time` in `utils/riot.py`) is a
  parameter of type `Except Unit Int`: `.ok t` models a successful query
  returning `t` milliseconds, `.error ()` models a raised request exception.
-/

/-- Python `str.isspace` characters in the ASCII range (what `str.strip()`
removes). -/
def pyIsSpace (c : Char) : Bool :=
  c = ' ' || c = '\t' || c = '\n' || c = '\r' || c = '\x0b' || c = '\x0c'

/-- Python `str.strip()` on the underlying character list. -/
def pyStripL (s : List Char) : List Char :=
  ((s.dropWhile pyIsSpace).reverse.dropWhile pyIsSpace).reverse

/-- Python `str.strip()`. -/
def pyStrip (s : String) : String := ⟨pyStripL s.data⟩

/-- Python `str.upper()` (ASCII fragment). -/
def pyUpper (s : String) : String := ⟨s.data.map Char.toUpper⟩

/-- Python `str.isalnum()` (ASCII fragment): nonempty and all alphanumeric. -/
def pyIsAlnumL (s : List Char) : Bool :=
  !s.isEmpty && s.all Char.isAlphanum

/-- Python `int(str)`: optional surrounding whitespace, optional sign, one or
more decimal digits; `none` models a raised `ValueError`. -/
def pyInt (s : String) : Option Int :=
  match pyStripL s.data with
  | [] => none
  | c :: rest =>
    let digits := if c = '-' || c = '+' then rest else c :: rest
    if digits.isEmpty || !digits.all Char.isDigit then none
    else
      let n : Nat := digits.foldl (fun acc d => acc * 10 + (d.toNat - 48)) 0
      if c = '-' then some (-(n : Int)) else some (n : Int)

/-- Helper for Python `topic.split("/")`, accumulating the current segment in
reverse. -/
def splitSlashAux : List Char → List Char → List (List Char)
  | [], acc => [acc.reverse]
  | c :: rest, acc =>
    if c = '/' then acc.reverse :: splitSlashAux rest []
    else splitSlashAux rest (c :: acc)

/-- Python `topic.split("/")`. -/
def splitSlash (s : List Char) : List (List Char) := splitSlashAux s []

/-- `utils/helpers.py` `validate_room_id` (default `expected_length = 5`):
falsy check, then `strip().upper()`, then `len == 5 and isalnum()`. -/
def validate_room_id (room_id : String) : Bool :=
  if room_id.data = [] then false
  else
    let r := (pyStripL room_id.data).map Char.toUpper
    r.length == 5 && pyIsAlnumL r

/-- `utils/helpers.py` `validate_username` (defaults 3/20): falsy check,
`strip()`, length bounds, then all characters in
`string.ascii_letters + string.digits + '-'`. -/
def validate_username (username : String) : Bool :=
  if username.data = [] then false
  else
    let u := pyStripL username.data
    if u.length < 3 || u.length > 20 then false
    else u.all (fun c => c.isAlphanum || c == '-')

/-- A decoded JSON value (result of a successful `json.loads`).  The handlers
never look inside arrays, so array contents are not represented. -/
inductive JVal where
  | jnull : JVal
  | jbool : Bool → JVal
  | jnum : ℚ → JVal
  | jstr : String → JVal
  | jarr : JVal
  | jobj : List (String × JVal) → JVal

/-- An inbound MQTT payload: either text that `json.loads` rejects
(`json.JSONDecodeError`) or a decoded value. -/
inductive Payload where
  | malformed : Payload
  | valid : JVal → Payload

/-- Python `dict.get(k)` on a decoded JSON object (objects produced by
`json.loads` have unique keys). -/
def jGet (fields : List (String × JVal)) (k : String) : Option JVal :=
  (fields.find? (fun p => p.1 == k)).map Prod.snd

/-- Does a `dict.get("action")` result equal the given string?  (Python `==`
between an arbitrary value and a `str` is true only for that string.) -/
def actionIs (a : Option JVal) (s : String) : Bool :=
  match a with
  | some (.jstr t) => t == s
  | _ => false

/-- Python numeric coercion used by `+`/`-`: ints and floats are numbers and
`bool` is an int subclass; anything else raises `TypeError`. -/
def toPyNum : JVal → Option ℚ
  | .jnum q => some q
  | .jbool b => some (if b then 1 else 0)
  | _ => none

/-- Python `f"{v}"` on a decoded JSON value as used in topic interpolation.
The protocol only ever interpolates strings; scalar cases follow Python
`str()`, container representations are abbreviated (no theorem depends on
them). -/
def jFormat : JVal → String
  | .jstr s => s
  | .jnull => "None"
  | .jbool true => "True"
  | .jbool false => "False"
  | .jnum q => toString q
  | .jarr => "<list>"
  | .jobj _ => "<dict>"

/-- A Python exception escaping a handler. -/
inductive PyErr where
  | attrError : PyErr
  | timeSourceError : PyErr
  | typeError : PyErr
deriving DecidableEq

/-- An outbound protocol message (the `json.dumps` payloads built by the
code, in structured form). -/
inductive OutMsg where
  | join : OutMsg
  | leave : OutMsg
  | syncReq : OutMsg
  | assign : Int → OutMsg
  | timeReq : (requester : String) → (requester_delay : Int) →
      (main_observer_delay : Int) → OutMsg
  | syncResponse : (value : ℚ) → OutMsg
deriving DecidableEq

/-- Python truthiness of an `Optional[str]` field (`None` and `""` are
falsy). -/
def optTruthy : Option String → Bool
  | none => false
  | some s => !(s == "")

/-! ## Producer side (`ProducerView` in `ui/views.py`) -/

/-- Producer-side state: the generated room id, the `connected_users` dict
(username ↦ text of its delay entry, in insertion order) and the shared
main-observer radio variable (`""` = no selection). -/
structure ProducerState where
  room_id : Option String
  users : List (String × String)
  mainVar : String
deriving DecidableEq

/-- The producer state right after `show()` generated a room id. -/
def initProducer (room : String) : ProducerState :=
  ⟨some room, [], ""⟩

/-- `ProducerView.add_user`: no-op if the username is already present,
otherwise a row with delay entry text `"1000"` is appended.  (The guards on
`users_frame`/`main_observer_var` are UI-handle checks that always hold once
the view is shown.) -/
def add_user (st : ProducerState) (username : String) : ProducerState :=
  match st.users.find? (fun p => p.1 == username) with
  | some _ => st
  | none => { st with users := st.users ++ [(username, "1000")] }

/-- `ProducerView.remove_user`: no-op if absent; otherwise the radio variable
is cleared when it names the removed user, and the entry is deleted. -/
def remove_user (st : ProducerState) (username : String) : ProducerState :=
  match st.users.find? (fun p => p.1 == username) with
  | none => st
  | some _ =>
    { st with
      users := st.users.eraseP (fun p => p.1 == username)
      mainVar := if st.mainVar == username then "" else st.mainVar }

/-- `ProducerView.get_user_time`: `None` for an unknown user; otherwise
`int(entry_text)`, with 1000 on `ValueError`. -/
def get_user_time (st : ProducerState) (username : String) : Option Int :=
  (st.users.find? (fun p => p.1 == username)).map
    (fun p => (pyInt p.2).getD 1000)

/-- `ProducerView.get_main_observer`: the radio variable's value, `None` when
it is empty. -/
def get_main_observer (st : ProducerState) : Option String :=
  if st.mainVar == "" then none else some st.mainVar

/-- `ProducerView._handle_sync_request`: extract the requester from the topic,
require a selected main observer and a room id, default missing delays to
1000, and emit one `TIME_REQ` to `{room}/{main_observer}`. -/
def handle_sync_request (st : ProducerState) (topic : String) :
    List (String × OutMsg) :=
  let parts := splitSlash topic.data
  if parts.length < 2 then []
  else
    let requester : String := ⟨(parts.getLast?.getD [])⟩
    match get_main_observer st with
    | none => []
    | some m =>
      match st.room_id with
      | none => []
      | some room =>
        if room == "" then []
        else
          let requester_delay := (get_user_time st requester).getD 1000
          let main_observer_delay := (get_user_time st m).getD 1000
          [(room ++ "/" ++ m, OutMsg.timeReq requester requester_delay
              main_observer_delay)]

/-- Result of one producer inbound delivery: the state after the handler, the
publishes performed, and the exception (if any) escaping the handler. -/
structure ProdOutcome where
  state : ProducerState
  outbound : List (String × OutMsg)
  uncaught : Option PyErr
deriving DecidableEq

/-- `ProducerView.add_message`: decode the payload (`json.JSONDecodeError`
and `KeyError` are caught), dispatch on `action`; `SYNC_REQ` is relayed,
`JOIN`/`LEAVE` update the roster using the topic's trailing segment, anything
else is ignored.  `data.get` on a decoded non-object raises `AttributeError`,
which the `except` clause does not catch. -/
def add_message (st : ProducerState) (topic : String) (payload : Payload) :
    ProdOutcome :=
  match payload with
  | .malformed => ⟨st, [], none⟩
  | .valid (.jobj fields) =>
    let action := jGet fields "action"
    if actionIs action "SYNC_REQ" then
      ⟨st, handle_sync_request st topic, none⟩
    else if actionIs action "JOIN" || actionIs action "LEAVE" then
      let parts := splitSlash topic.data
      if parts.length ≥ 2 then
        let username : String := ⟨(parts.getLast?.getD [])⟩
        if actionIs action "JOIN" then ⟨add_user st username, [], none⟩
        else ⟨remove_user st username, [], none⟩
      else ⟨st, [], none⟩
    else ⟨st, [], none⟩
  | .valid _ => ⟨st, [], some .attrError⟩

/-! ## Observer side (`ObserverView` in `ui/views.py`, sink in
`utils/riot.py`) -/

/-- Observer-side session fields (`current_room_id`, `current_username`). -/
structure ObserverState where
  current_room_id : Option String
  current_username : Option String
deriving DecidableEq

/-- The body `set_time` in `utils/riot.py` POSTs to the local
time-application sink: all fields fixed except `time`. -/
structure SetTimeBody where
  length : Int
  paused : Bool
  seeking : Bool
  speed : Int
  time : JVal

/-- `utils/riot.py` `set_time`: builds the playback body for value `t`
(`paused = False`, `seeking = True`). -/
def set_time (t : JVal) : SetTimeBody :=
  { length := 0, paused := false, seeking := true, speed := 1, time := t }

/-- Result of one observer inbound delivery: publishes performed, calls to the
local time-application sink, and the exception (if any) escaping the
handler. -/
structure ObsOutcome where
  outbound : List (String × OutMsg)
  sink : List SetTimeBody
  uncaught : Option PyErr

/-- `ObserverView._handle_time_request`: return early if either session field
is falsy; query the authoritative time source (its exception is not caught
here); publish `SYNC_RESPONSE` with value
`(actual_time + requester_delay - main_observer_delay) / 1000` (Python true
division) to `{current_room_id}/{requester}`.  Non-numeric delays raise
`TypeError` at the arithmetic. -/
def handle_time_request (st : ObserverState) (timeSrc : Except Unit Int)
    (requester rD mD : JVal) : ObsOutcome :=
  if !(optTruthy st.current_room_id) || !(optTruthy st.current_username) then
    ⟨[], [], none⟩
  else
    match timeSrc with
    | .error _ => ⟨[], [], some .timeSourceError⟩
    | .ok t =>
      match toPyNum rD, toPyNum mD with
      | some a, some b =>
        ⟨[((st.current_room_id.getD "") ++ "/" ++ jFormat requester,
            OutMsg.syncResponse (((t : ℚ) + a - b) / 1000))], [], none⟩
      | _, _ => ⟨[], [], some .typeError⟩

/-- `ObserverView.add_received_message`: decode (`json.JSONDecodeError` and
`KeyError` are caught), dispatch on `action`: `TIME_REQ` answers with the
defaults `"unknown"`/0/0 for missing fields, `ASSIGN` only logs,
`SYNC_RESPONSE` calls `set_time` with `data.get("value", 0)`.  `data.get` on
a decoded non-object raises an uncaught `AttributeError`. -/
def add_received_message (st : ObserverState) (timeSrc : Except Unit Int)
    (payload : Payload) : ObsOutcome :=
  match payload with
  | .malformed => ⟨[], [], none⟩
  | .valid (.jobj fields) =>
    let action := jGet fields "action"
    if actionIs action "TIME_REQ" then
      let requester := (jGet fields "requester").getD (.jstr "unknown")
      let rD := (jGet fields "requester_delay").getD (.jnum 0)
      let mD := (jGet fields "main_observer_delay").getD (.jnum 0)
      handle_time_request st timeSrc requester rD mD
    else if actionIs action "ASSIGN" then ⟨[], [], none⟩
    else if actionIs action "SYNC_RESPONSE" then
      let v := (jGet fields "value").getD (.jnum 0)
      ⟨[], [set_time v], none⟩
    else ⟨[], [], none⟩
  | .valid _ => ⟨[], [], some .attrError⟩

/-- `MQTTManager._on_message` in `mqtt/client.py` wraps the whole inbound
callback chain in `try ... except Exception: print(...)`, so no exception
raised while handling a delivery escapes the transport callback. -/
def observer_on_message (st : ObserverState) (timeSrc : Except Unit Int)
    (payload : Payload) : ObsOutcome :=
  let r := add_received_message st timeSrc payload
  { r with uncaught := none }

/-- `ObserverView._on_join_clicked` together with
`ViewCallbacksImpl.on_room_joined` in `app.py`: strip and uppercase the room
entry, strip the username entry, validate both (on failure: a dialog, no
session change, no network action); on success set the session fields,
subscribe to `{room}/{user}` and publish `JOIN` there. -/
structure JoinOutcome where
  state : ObserverState
  subs : List String
  outbound : List (String × OutMsg)
deriving DecidableEq

def on_join_clicked (st : ObserverState) (roomText userText : String) :
    JoinOutcome :=
  let room_id := pyUpper (pyStrip roomText)
  let username := pyStrip userText
  if !(validate_room_id room_id) then ⟨st, [], []⟩
  else if !(validate_username username) then ⟨st, [], []⟩
  else
    let topic := room_id ++ "/" ++ username
    ⟨⟨some room_id, some username⟩, [topic], [(topic, OutMsg.join)]⟩

/-! ## App-level producer operations (`ViewCallbacksImpl` in `app.py`) -/

/-- Result of an operator action on the producer: new state plus the
publishes that actually went out. -/
structure ProdStep where
  state : ProducerState
  outbound : List (String × OutMsg)
deriving DecidableEq

/-- `ViewCallbacksImpl.on_remove_user`: inside one `try`, publish `LEAVE` to
`{room}/{username}` and then call `ProducerView.remove_user`.
`MQTTManager.publish` raises when the client is not connected (`connected =
false`); the `except` then skips the removal, so the roster is mutated only
when the publish succeeded. -/
def on_remove_user (st : ProducerState) (connected : Bool)
    (username : String) : ProdStep :=
  match st.room_id with
  | none => ⟨st, []⟩
  | some room =>
    if room == "" || username == "" then ⟨st, []⟩
    else if connected then
      ⟨remove_user st username, [(room ++ "/" ++ username, OutMsg.leave)]⟩
    else ⟨st, []⟩

/-! ## Roster operation sequences (for the single-main-observer invariant) -/

/-- One roster-affecting event on a producer: an inbound `JOIN`/`LEAVE` for a
user, an operator-initiated removal (with the outcome of its `LEAVE`
publish), or a click on a user's `MAIN OBSERVER` radio button (which sets the
shared radio variable to that username). -/
inductive RosterOp where
  | join : String → RosterOp
  | leave : String → RosterOp
  | opRemove : String → Bool → RosterOp
  | select : String → RosterOp

/-- Apply one roster operation to the producer state. -/
def applyOp (st : ProducerState) : RosterOp → ProducerState
  | .join u => add_user st u
  | .leave u => remove_user st u
  | .opRemove u ok => (on_remove_user st ok u).state
  | .select u => { st with mainVar := u }

/-- Is `u` rendered as the main observer (`get_all_users_config`:
`username == get_main_observer()`)? -/
def isMainUser (st : ProducerState) (u : String) : Bool :=
  match get_main_observer st with
  | some m => u == m
  | none => false

/-- Number of roster entries currently marked as main observer. -/
def mainCount (st : ProducerState) : Nat :=
  (st.users.filter (fun p => isMainUser st p.1)).length

/-- Number of roster entries for a given username. -/
def countKey (st : ProducerState) (u : String) : Nat :=
  (st.users.filter (fun p => p.1 == u)).length

/-- Spec-side definition: membership in the character class `[A-Z0-9]` of
the room-id pattern `^[A-Z0-9]{5}$`. -/
def isUpperAlnum (c : Char) : Bool :=
  ('A' ≤ c && c ≤ 'Z') || ('0' ≤ c && c ≤ '9')

/-- The `dict.get("action")` result is missing, not a string, or a string
outside the given recognized set (so every `action == ...` test in the
dispatching handler is false). -/
def unrecognizedBy (acts : List String) (a : Option JVal) : Bool :=
  match a with
  | some (.jstr s) => !(acts.contains s)
  | _ => true

/-! ## Helper lemmas -/

theorem actionIs_false_of_unrecognized {acts : List String} {a : Option JVal}
    (h : unrecognizedBy acts a = true) {s : String} (hs : s ∈ acts) :
    actionIs a s = false := by
  unfold unrecognizedBy at h
  unfold actionIs
  match a, h with
  | none, _ => rfl
  | some .jnull, _ => rfl
  | some (.jbool b), _ => rfl
  | some (.jnum q), _ => rfl
  | some .jarr, _ => rfl
  | some (.jobj f), _ => rfl
  | some (.jstr t), h =>
    simp only [Bool.not_eq_true'] at h
    have h' : acts.elem t = false := h
    have hmem : t ∉ acts := fun hm => by
      rw [List.elem_eq_true_of_mem hm] at h'
      cases h'
    simp only [beq_eq_false_iff_ne, ne_eq]
    intro ht
    exact hmem (ht ▸ hs)

theorem actionIs_eq {a : Option JVal} {s : String}
    (h : actionIs a s = true) : a = some (.jstr s) := by
  unfold actionIs at h
  match a, h with
  | some (.jstr t), h => simpa [beq_iff_eq] using (beq_iff_eq.mp h ▸ rfl)

theorem actionIs_other {s t : String} (h : s ≠ t) :
    actionIs (some (.jstr s)) t = false := by
  simp [actionIs, h]

/-- C10: an inbound valid-JSON object with action `SYNC_RESPONSE` and no
`value` field is not dropped by the observer: the local time-application sink
is invoked with the default value 0 and the fixed body fields
`paused = false`, `seeking = true`. -/
theorem sync_response_missing_value_applies_default
    (st : ObserverState) (timeSrc : Except Unit Int)
    (fields : List (String × JVal))
    (hact : actionIs (jGet fields "action") "SYNC_RESPONSE" = true)
    (hval : jGet fields "value" = none) :
    add_received_message st timeSrc (.valid (.jobj fields)) =
      ⟨[], [{ length := 0, paused := false, seeking := true, speed := 1,
              time := JVal.jnum 0 }], none⟩ := by
  have ha := actionIs_eq hact
  simp [add_received_message, ha, actionIs, hval, set_time]

/-- Witness for C10 at the concrete payload
`{"action": "SYNC_RESPONSE"}`. -/
theorem sync_response_missing_value_witness :
    add_received_message ⟨none, none⟩ (Except.ok 0)
      (.valid (.jobj [("action", JVal.jstr "SYNC_RESPONSE")])) =
      ⟨[], [{ length := 0, paused := false, seeking := true, speed := 1,
              time := JVal.jnum 0 }], none⟩ :=
  sync_response_missing_value_applies_default _ _ _ (by rfl) (by rfl)

/-- C2: an observer with an active session (`{room}` and username set) that
receives `TIME_REQ{requester: R, requester_delay: dR, main_observer_delay:
dM}` while the authoritative time source returns `T` ms publishes exactly one
`SYNC_RESPONSE` whose value is `(T + dR - dM) / 1000` computed with real
(rational, non-truncating) division, addressed to `{room}/{R}`. -/
theorem time_req_produces_sync_response
    (room user R : String) (dR dM T : Int)
    (hroom : room ≠ "") (huser : user ≠ "") :
    add_received_message ⟨some room, some user⟩ (Except.ok T)
      (.valid (.jobj
        [("action", JVal.jstr "TIME_REQ"),
         ("requester", JVal.jstr R),
         ("requester_delay", JVal.jnum (dR : ℚ)),
         ("main_observer_delay", JVal.jnum (dM : ℚ))])) =
      ⟨[(room ++ "/" ++ R,
          OutMsg.syncResponse (((T : ℚ) + (dR : ℚ) - (dM : ℚ)) / 1000))],
        [], none⟩ := by
  simp [add_received_message, jGet, actionIs, handle_time_request, optTruthy,
        toPyNum, jFormat, hroom, huser]

/-- Witness for C2: the spec's end-to-end scenario — room `"ABCDE"`,
requester `"alice"` (delay 500), main observer delay 1000, time 120000 ms;
the response value is `119.5`. -/
theorem time_req_produces_sync_response_witness :
    add_received_message ⟨some "ABCDE", some "bob"⟩ (Except.ok 120000)
      (.valid (.jobj
        [("action", JVal.jstr "TIME_REQ"),
         ("requester", JVal.jstr "alice"),
         ("requester_delay", JVal.jnum ((500 : Int) : ℚ)),
         ("main_observer_delay", JVal.jnum ((1000 : Int) : ℚ))])) =
      ⟨[("ABCDE/alice",
          OutMsg.syncResponse ((((120000 : Int) : ℚ) + ((500 : Int) : ℚ) -
            ((1000 : Int) : ℚ)) / 1000))], [], none⟩ :=
  time_req_produces_sync_response "ABCDE" "bob" "alice" 500 1000 120000
    (by decide) (by decide)

/-- The witness value really is 119.5 seconds. -/
theorem time_req_response_value_is_119_5 :
    ((((120000 : Int) : ℚ) + ((500 : Int) : ℚ) - ((1000 : Int) : ℚ)) / 1000)
      = 119.5 := by norm_num

/-- Counterexample to C6: a fully well-formed `TIME_REQ` delivered to an
observer whose session fields are unset produces no outbound message (the
handler checks `current_room_id`/`current_username` and returns early),
whereas the same delivery with the session set does publish — so the
reference behavior does gate `TIME_REQ` handling on session state. -/
theorem time_req_session_gating_cex :
    (add_received_message ⟨none, none⟩ (Except.ok 0)
      (.valid (.jobj
        [("action", JVal.jstr "TIME_REQ"),
         ("requester", JVal.jstr "alice"),
         ("requester_delay", JVal.jnum 500),
         ("main_observer_delay", JVal.jnum 1000)]))).outbound = [] ∧
    (add_received_message ⟨some "ABCDE", some "bob"⟩ (Except.ok 0)
      (.valid (.jobj
        [("action", JVal.jstr "TIME_REQ"),
         ("requester", JVal.jstr "alice"),
         ("requester_delay", JVal.jnum 500),
         ("main_observer_delay", JVal.jnum 1000)]))).outbound ≠ [] := by
  exact ⟨rfl, by decide⟩

/-- C6 as amended: the `SYNC_RESPONSE` handler acts (invokes the sink)
regardless of session state, but the `TIME_REQ` handler, while it fires
regardless of session state, publishes nothing when `current_room_id` or
`current_username` is unset/empty. -/
theorem observer_session_gating
    (st : ObserverState) (timeSrc : Except Unit Int)
    (fields : List (String × JVal)) :
    (actionIs (jGet fields "action") "SYNC_RESPONSE" = true →
      add_received_message st timeSrc (.valid (.jobj fields)) =
        ⟨[], [set_time ((jGet fields "value").getD (JVal.jnum 0))], none⟩) ∧
    (actionIs (jGet fields "action") "TIME_REQ" = true →
      (optTruthy st.current_room_id = false ∨
        optTruthy st.current_username = false) →
      add_received_message st timeSrc (.valid (.jobj fields)) =
        ⟨[], [], none⟩) := by
  constructor
  · intro hact
    have ha := actionIs_eq hact
    simp [add_received_message, ha, actionIs]
  · intro hact hsess
    have ha := actionIs_eq hact
    have : (!(optTruthy st.current_room_id) ||
        !(optTruthy st.current_username)) = true := by
      rcases hsess with h | h <;> simp [h]
    simp [add_received_message, ha, actionIs, handle_time_request, this]

/-- Witness for the amended C6: concrete `SYNC_RESPONSE` applied with no
session, and concrete `TIME_REQ` dropped with no session. -/
theorem observer_session_gating_witness :
    add_received_message ⟨none, none⟩ (Except.ok 0)
      (.valid (.jobj [("action", JVal.jstr "SYNC_RESPONSE"),
        ("value", JVal.jnum 7)])) =
      ⟨[], [set_time (JVal.jnum 7)], none⟩ ∧
    add_received_message ⟨none, some "bob"⟩ (Except.ok 0)
      (.valid (.jobj [("action", JVal.jstr "TIME_REQ")])) =
      ⟨[], [], none⟩ :=
  ⟨(observer_session_gating ⟨none, none⟩ (Except.ok 0) _).1 (by rfl),
   (observer_session_gating ⟨none, some "bob"⟩ (Except.ok 0) _).2 (by rfl)
     (Or.inl (by rfl))⟩

/-- C5: for any inbound `TIME_REQ`, if the authoritative time source raises,
the pending `SYNC_RESPONSE` is dropped — the handler publishes nothing — and
the failure never escapes the inbound-handling path: the transport's message
callback (`MQTTManager._on_message`) catches every exception, so the engine
does not crash. -/
theorem time_source_failure_contained
    (st : ObserverState) (fields : List (String × JVal))
    (hact : actionIs (jGet fields "action") "TIME_REQ" = true) :
    (add_received_message st (Except.error ()) (.valid (.jobj fields))).outbound
        = [] ∧
    (add_received_message st (Except.error ()) (.valid (.jobj fields))).sink
        = [] ∧
    (observer_on_message st (Except.error ()) (.valid (.jobj fields))).uncaught
        = none := by
  have ha := actionIs_eq hact
  refine ⟨?_, ?_, rfl⟩ <;>
    · simp only [add_received_message, ha, actionIs, handle_time_request]
      split <;> first | rfl | (split <;> rfl)

/-- Witness for C5: concrete well-formed `TIME_REQ` with an active session
and a failing time source. -/
theorem time_source_failure_contained_witness :
    (add_received_message ⟨some "ABCDE", some "bob"⟩ (Except.error ())
      (.valid (.jobj [("action", JVal.jstr "TIME_REQ"),
        ("requester", JVal.jstr "alice"),
        ("requester_delay", JVal.jnum 500),
        ("main_observer_delay", JVal.jnum 1000)]))).outbound = [] ∧
    (add_received_message ⟨some "ABCDE", some "bob"⟩ (Except.error ())
      (.valid (.jobj [("action", JVal.jstr "TIME_REQ"),
        ("requester", JVal.jstr "alice"),
        ("requester_delay", JVal.jnum 500),
        ("main_observer_delay", JVal.jnum 1000)]))).sink = [] ∧
    (observer_on_message ⟨some "ABCDE", some "bob"⟩ (Except.error ())
      (.valid (.jobj [("action", JVal.jstr "TIME_REQ"),
        ("requester", JVal.jstr "alice"),
        ("requester_delay", JVal.jnum 500),
        ("main_observer_delay", JVal.jnum 1000)]))).uncaught = none :=
  time_source_failure_contained ⟨some "ABCDE", some "bob"⟩ _ (by rfl)

theorem splitSlashAux_ne_nil (s acc : List Char) :
    splitSlashAux s acc ≠ [] := by
  induction s generalizing acc with
  | nil => simp [splitSlashAux]
  | cons c rest ih =>
    simp only [splitSlashAux]
    split
    · simp
    · exact ih _

theorem splitSlashAux_no_slash (R : List Char) (hR : '/' ∉ R)
    (acc : List Char) : splitSlashAux R acc = [acc.reverse ++ R] := by
  induction R generalizing acc with
  | nil => simp [splitSlashAux]
  | cons c rest ih =>
    have hc : ¬(c = '/') := fun h => hR (by rw [h]; exact List.mem_cons_self _ _)
    have hr : '/' ∉ rest := fun h => hR (List.mem_cons_of_mem _ h)
    simp only [splitSlashAux, if_neg hc]
    rw [ih hr (c :: acc)]
    simp

theorem splitSlashAux_append (xs R : List Char) (hR : '/' ∉ R)
    (acc : List Char) :
    (splitSlashAux (xs ++ '/' :: R) acc).getLast? = some R ∧
    2 ≤ (splitSlashAux (xs ++ '/' :: R) acc).length := by
  induction xs generalizing acc with
  | nil =>
    simp only [List.nil_append, splitSlashAux, if_pos rfl]
    rw [splitSlashAux_no_slash R hR []]
    simp
  | cons c xs ih =>
    simp only [List.cons_append, splitSlashAux]
    split
    · obtain ⟨hlast, hlen⟩ := ih []
      rcases hl : splitSlashAux (xs ++ '/' :: R) [] with _ | ⟨a, l⟩
      · exact absurd hl (splitSlashAux_ne_nil _ _)
      · rw [hl] at hlast hlen
        refine ⟨?_, ?_⟩
        · rw [List.getLast?_cons_cons]; exact hlast
        · simp
    · exact ih _

/-- C1: a `SYNC_REQ` arriving on `{room}/{R}` with a main observer `M`
selected makes the producer publish exactly one `TIME_REQ{requester: R,
requester_delay: dR, main_observer_delay: dM}` to `{room}/{M}`, where `dR` is
`R`'s roster delay (1000 when `R` is not a known roster member) and `dM` is
`M`'s roster delay; with no main observer selected, it publishes nothing (and
in both cases the roster is unchanged and no exception escapes). -/
theorem sync_req_relay
    (st : ProducerState) (room R : String)
    (hroom : st.room_id = some room) (hne : room ≠ "")
    (hR : '/' ∉ R.data) :
    (∀ M, get_main_observer st = some M →
      add_message st (room ++ "/" ++ R)
          (.valid (.jobj [("action", JVal.jstr "SYNC_REQ")])) =
        ⟨st, [(room ++ "/" ++ M,
            OutMsg.timeReq R ((get_user_time st R).getD 1000)
              ((get_user_time st M).getD 1000))], none⟩) ∧
    (get_main_observer st = none →
      add_message st (room ++ "/" ++ R)
          (.valid (.jobj [("action", JVal.jstr "SYNC_REQ")])) =
        ⟨st, [], none⟩) := by
  have hdata : (room ++ "/" ++ R).data = room.data ++ '/' :: R.data := by
    simp [String.data_append]
  obtain ⟨hlast, hlen⟩ := splitSlashAux_append room.data R.data hR []
  have hsplit : splitSlash (room ++ "/" ++ R).data =
      splitSlashAux (room.data ++ '/' :: R.data) [] := by
    rw [hdata]; rfl
  have hlt : ¬ (splitSlash (room ++ "/" ++ R).data).length < 2 := by
    rw [hsplit]; omega
  have hreq : (⟨(splitSlash (room ++ "/" ++ R).data).getLast?.getD []⟩ : String)
      = R := by
    rw [hsplit, hlast]
    rfl
  have hbeq : (room == "") = false := by
    simp [hne]
  constructor
  · intro M hM
    simp only [add_message, jGet, List.find?, actionIs, handle_sync_request,
      hM, hroom, hbeq]
    simp only [if_neg hlt] at *
    simp_all
  · intro hM
    simp only [add_message, jGet, List.find?, actionIs, handle_sync_request,
      hM, hroom, hbeq]
    simp only [if_neg hlt] at *
    simp_all

/-- Witness for C1: roster `{alice: "500", bob: "1000"}` with main observer
`bob` relays alice's `SYNC_REQ` as one `TIME_REQ` to `ABCDE/bob`; the same
roster with no selection produces nothing. -/
theorem sync_req_relay_witness :
    add_message ⟨some "ABCDE", [("alice", "500"), ("bob", "1000")], "bob"⟩
        ("ABCDE" ++ "/" ++ "alice")
        (.valid (.jobj [("action", JVal.jstr "SYNC_REQ")])) =
      ⟨⟨some "ABCDE", [("alice", "500"), ("bob", "1000")], "bob"⟩,
        [("ABCDE" ++ "/" ++ "bob",
          OutMsg.timeReq "alice"
            ((get_user_time ⟨some "ABCDE",
              [("alice", "500"), ("bob", "1000")], "bob"⟩ "alice").getD 1000)
            ((get_user_time ⟨some "ABCDE",
              [("alice", "500"), ("bob", "1000")], "bob"⟩ "bob").getD 1000))],
        none⟩ ∧
    add_message ⟨some "ABCDE", [("alice", "500"), ("bob", "1000")], ""⟩
        ("ABCDE" ++ "/" ++ "alice")
        (.valid (.jobj [("action", JVal.jstr "SYNC_REQ")])) =
      ⟨⟨some "ABCDE", [("alice", "500"), ("bob", "1000")], ""⟩, [], none⟩ :=
  ⟨(sync_req_relay ⟨some "ABCDE", [("alice", "500"), ("bob", "1000")], "bob"⟩
      "ABCDE" "alice" rfl (by decide) (by decide)).1 "bob" rfl,
   (sync_req_relay ⟨some "ABCDE", [("alice", "500"), ("bob", "1000")], ""⟩
      "ABCDE" "alice" rfl (by decide) (by decide)).2 rfl⟩

/-- The delays in the C1 witness are the roster delays 500 and 1000. -/
theorem sync_req_relay_witness_delays :
    (get_user_time ⟨some "ABCDE", [("alice", "500"), ("bob", "1000")], "bob"⟩
        "alice").getD 1000 = 500 ∧
    (get_user_time ⟨some "ABCDE", [("alice", "500"), ("bob", "1000")], "bob"⟩
        "bob").getD 1000 = 1000 ∧
    (get_user_time ⟨some "ABCDE", [("alice", "500"), ("bob", "1000")], "bob"⟩
        "carol") = none := by
  refine ⟨?_, ?_, ?_⟩ <;> rfl

/-- C7: for a roster in which `u` has at most one entry (which holds for
every reachable roster), processing `JOIN(u)` twice is the same as processing
it once — the second `JOIN` is a no-op — and leaves exactly one roster entry
for `u`. -/
theorem join_twice_one_entry (st : ProducerState) (u : String)
    (h : countKey st u ≤ 1) :
    add_user (add_user st u) u = add_user st u ∧
    countKey (add_user (add_user st u) u) u = 1 := by
  have hidem : add_user (add_user st u) u = add_user st u := by
    rcases hfind : st.users.find? (fun p => p.1 == u) with _ | x
    · simp only [add_user, hfind, List.find?_append, hfind, Option.none_or]
      simp [List.find?]
    · simp [add_user, hfind]
  refine ⟨hidem, ?_⟩
  rw [hidem]
  rcases hfind : st.users.find? (fun p => p.1 == u) with _ | x
  · have hzero : countKey st u = 0 := by
      rw [List.find?_eq_none] at hfind
      simp only [countKey, List.length_eq_zero, List.filter_eq_nil_iff]
      exact hfind
    simp only [add_user, hfind, countKey, List.filter_append]
    simp only [countKey] at hzero
    simp [hzero, List.filter]
  · have hone : 1 ≤ countKey st u := by
      have hmem := List.mem_of_find?_eq_some hfind
      have hp := List.find?_some hfind
      have : x ∈ st.users.filter (fun p => p.1 == u) :=
        List.mem_filter.mpr ⟨hmem, hp⟩
      have := List.length_pos.mpr (List.ne_nil_of_mem this)
      simpa [countKey] using this
    simp only [add_user, hfind]
    omega

/-- Witness for C7: joining `"alice"` twice on an empty roster leaves one
entry. -/
theorem join_twice_one_entry_witness :
    add_user (add_user (initProducer "ABCDE") "alice") "alice" =
      add_user (initProducer "ABCDE") "alice" ∧
    countKey (add_user (add_user (initProducer "ABCDE") "alice") "alice")
      "alice" = 1 :=
  join_twice_one_entry (initProducer "ABCDE") "alice" (by decide)

/-- Roster usernames are pairwise distinct (holds in every reachable
producer state, since `add_user` refuses duplicates). -/
def keysNodup (st : ProducerState) : Prop :=
  (st.users.map Prod.fst).Nodup

theorem keysNodup_add_user (st : ProducerState) (u : String)
    (h : keysNodup st) : keysNodup (add_user st u) := by
  rcases hfind : st.users.find? (fun p => p.1 == u) with _ | x
  · have hall := List.find?_eq_none.mp hfind
    simp only [keysNodup, add_user, hfind, List.map_append, List.map_cons,
      List.map_nil]
    rw [List.nodup_append]
    refine ⟨h, List.nodup_singleton _, ?_⟩
    intro a ha hb
    simp only [List.mem_singleton] at hb
    obtain ⟨p, hp, hpa⟩ := List.mem_map.mp ha
    exact absurd (by simp [hpa, hb]) (hall p hp)
  · simpa [keysNodup, add_user, hfind] using h

theorem keysNodup_remove_user (st : ProducerState) (u : String)
    (h : keysNodup st) : keysNodup (remove_user st u) := by
  rcases hfind : st.users.find? (fun p => p.1 == u) with _ | x
  · simpa [remove_user, hfind, keysNodup] using h
  · simp only [keysNodup, remove_user, hfind]
    exact h.sublist ((List.eraseP_sublist _).map _)

theorem keysNodup_applyOp (st : ProducerState) (op : RosterOp)
    (h : keysNodup st) : keysNodup (applyOp st op) := by
  cases op with
  | join u => exact keysNodup_add_user st u h
  | leave u => exact keysNodup_remove_user st u h
  | opRemove u ok =>
    simp only [applyOp, on_remove_user]
    rcases st.room_id with _ | room
    · exact h
    · dsimp only
      split
      · exact h
      · split
        · exact keysNodup_remove_user st u h
        · exact h
  | select u => exact h

theorem keysNodup_foldl (ops : List RosterOp) :
    ∀ st : ProducerState, keysNodup st →
      keysNodup (ops.foldl applyOp st) := by
  induction ops with
  | nil => exact fun st h => h
  | cons op ops ih =>
    intro st h
    exact ih _ (keysNodup_applyOp st op h)

theorem mainCount_le_one (st : ProducerState) (h : keysNodup st) :
    mainCount st ≤ 1 := by
  rcases hmv : get_main_observer st with _ | m
  · simp [mainCount, isMainUser, hmv]
  · have hfun : (fun p : String × String => isMainUser st p.1) =
        (fun p : String × String => p.1 == m) := by
      funext p; simp [isMainUser, hmv]
    have hcount : mainCount st = (st.users.map Prod.fst).count m := by
      rw [List.count_eq_countP, List.countP_map,
        List.countP_eq_length_filter, mainCount, hfun]
      rfl
    rw [hcount]
    exact List.nodup_iff_count_le_one.mp h m

/-- C3: starting from the empty roster, after any sequence of `JOIN`
insertions, `LEAVE`/operator removals and main-observer selections, at most
one roster entry is the main observer; and selecting a main observer `u`
leaves `u` as the only possible holder (the radio variable forgets the
previous one). -/
theorem main_observer_single_selection :
    (∀ (room : String) (ops : List RosterOp),
        mainCount (ops.foldl applyOp (initProducer room)) ≤ 1) ∧
    (∀ (st : ProducerState) (u v : String),
        isMainUser (applyOp st (.select u)) v = true → v = u) := by
  constructor
  · intro room ops
    exact mainCount_le_one _
      (keysNodup_foldl ops _ (by simp [keysNodup, initProducer]))
  · intro st u v hv
    by_cases hu : u = ""
    · simp [applyOp, isMainUser, get_main_observer, hu] at hv
    · simpa [applyOp, isMainUser, get_main_observer, hu] using hv

/-- Witness for C3: a concrete operation sequence (two joins, two competing
selections, one removal) ends with at most one main observer, and a concrete
re-selection names only the new holder. -/
theorem main_observer_single_selection_witness :
    mainCount ([RosterOp.join "alice", RosterOp.join "bob",
        RosterOp.select "alice", RosterOp.select "bob",
        RosterOp.leave "alice"].foldl applyOp (initProducer "ABCDE")) ≤ 1 ∧
    ("bob" : String) = "bob" :=
  ⟨main_observer_single_selection.1 "ABCDE" _,
   main_observer_single_selection.2
     ⟨some "ABCDE", [("alice", "1000"), ("bob", "1000")], "alice"⟩
     "bob" "bob" (by rfl)⟩

/-- Counterexample to C4: with `alice` present in the roster and the `LEAVE`
publish failing (client not connected, `MQTTManager.publish` raises), the
operator removal leaves the roster entry in place — deletion is *not*
performed regardless of the publish outcome. -/
theorem remove_user_publish_failure_cex :
    (on_remove_user ⟨some "ABCDE", [("alice", "1000")], ""⟩
        false "alice").state.users = [("alice", "1000")] ∧
    (on_remove_user ⟨some "ABCDE", [("alice", "1000")], ""⟩
        false "alice").outbound = [] :=
  ⟨rfl, rfl⟩

theorem filter_eraseP_eq_nil {α : Type} (p : α → Bool) :
    ∀ l : List α, (l.filter p).length ≤ 1 → (l.eraseP p).filter p = [] := by
  intro l
  induction l with
  | nil => simp
  | cons x l ih =>
    intro h
    by_cases hx : p x
    · rw [List.eraseP_cons_of_pos hx]
      rw [List.filter_cons_of_pos hx] at h
      simp only [List.length_cons] at h
      have : (l.filter p).length = 0 := by omega
      exact List.length_eq_zero.mp this
    · have hx' : ¬ p x = true := hx
      rw [List.eraseP_cons_of_neg hx', List.filter_cons_of_neg hx']
      rw [List.filter_cons_of_neg hx'] at h
      exact ih h

/-- After `remove_user u` on a duplicate-free roster, no entry for `u`
remains. -/
theorem remove_user_deletes (st : ProducerState) (u : String)
    (h : countKey st u ≤ 1) : countKey (remove_user st u) u = 0 := by
  rcases hfind : st.users.find? (fun p => p.1 == u) with _ | x
  · have hall := List.find?_eq_none.mp hfind
    have : countKey st u = 0 := by
      simp only [countKey, List.length_eq_zero, List.filter_eq_nil_iff]
      exact hall
    simpa [remove_user, hfind] using this
  · simp only [remove_user, hfind, countKey]
    rw [filter_eraseP_eq_nil _ _ h]
    rfl

/-- C4 as amended: `on_remove_user(u)` publishes `LEAVE` to `{room}/{u}` and
deletes `u`'s roster entry when the publish succeeds; when the publish
raises, the exception is caught, no message goes out, and the roster entry
is *not* deleted (the state is unchanged). -/
theorem on_remove_user_behavior
    (st : ProducerState) (room u : String)
    (hroom : st.room_id = some room) (hr : room ≠ "") (hu : u ≠ "")
    (hcnt : countKey st u ≤ 1) :
    (on_remove_user st true u =
        ⟨remove_user st u, [(room ++ "/" ++ u, OutMsg.leave)]⟩ ∧
      countKey (remove_user st u) u = 0) ∧
    on_remove_user st false u = ⟨st, []⟩ := by
  have hbr : (room == "") = false := by simp [hr]
  have hbu : (u == "") = false := by simp [hu]
  exact ⟨⟨by simp [on_remove_user, hroom, hbr, hbu],
    remove_user_deletes st u hcnt⟩,
    by simp [on_remove_user, hroom, hbr, hbu]⟩

/-- Witness for the amended C4 at the roster `{alice}` in room `ABCDE`. -/
theorem on_remove_user_behavior_witness :
    (on_remove_user ⟨some "ABCDE", [("alice", "1000")], ""⟩ true "alice" =
        ⟨remove_user ⟨some "ABCDE", [("alice", "1000")], ""⟩ "alice",
          [("ABCDE" ++ "/" ++ "alice", OutMsg.leave)]⟩ ∧
      countKey (remove_user ⟨some "ABCDE", [("alice", "1000")], ""⟩ "alice")
        "alice" = 0) ∧
    on_remove_user ⟨some "ABCDE", [("alice", "1000")], ""⟩ false "alice" =
      ⟨⟨some "ABCDE", [("alice", "1000")], ""⟩, []⟩ :=
  on_remove_user_behavior ⟨some "ABCDE", [("alice", "1000")], ""⟩
    "ABCDE" "alice" rfl (by decide) (by decide) (by decide)

/-- Counterexample to C8: a payload that is valid JSON but not an object
(here a JSON array) lacks an `action` field, yet both inbound handlers raise
`AttributeError` out of the handler (`data.get` on a non-dict; the `except`
clause catches only `json.JSONDecodeError`/`KeyError`) — an error *is*
surfaced to the caller. -/
theorem nonobject_payload_raises_cex :
    (add_message (initProducer "ABCDE") ("ABCDE" ++ "/" ++ "alice")
        (.valid .jarr)).uncaught = some PyErr.attrError ∧
    (add_received_message ⟨some "ABCDE", some "bob"⟩ (Except.ok 0)
        (.valid .jarr)).uncaught = some PyErr.attrError :=
  ⟨rfl, rfl⟩

/-- C8 as amended: malformed JSON, and valid JSON *objects* whose `action`
is missing, not a string, or unrecognized, produce no outbound message, no
roster/session mutation and no surfaced error in either handler; a valid
non-object JSON payload instead raises `AttributeError` out of the handler
(caught only by the transport callback's catch-all). -/
theorem malformed_payload_no_effect
    (pst : ProducerState) (ost : ObserverState) (topic : String)
    (timeSrc : Except Unit Int) (fields : List (String × JVal)) :
    (add_message pst topic .malformed = ⟨pst, [], none⟩) ∧
    (add_received_message ost timeSrc .malformed = ⟨[], [], none⟩) ∧
    (unrecognizedBy ["SYNC_REQ", "JOIN", "LEAVE"]
        (jGet fields "action") = true →
      add_message pst topic (.valid (.jobj fields)) = ⟨pst, [], none⟩) ∧
    (unrecognizedBy ["TIME_REQ", "ASSIGN", "SYNC_RESPONSE"]
        (jGet fields "action") = true →
      add_received_message ost timeSrc (.valid (.jobj fields)) =
        ⟨[], [], none⟩) := by
  refine ⟨rfl, rfl, ?_, ?_⟩
  · intro hp
    have h1 := actionIs_false_of_unrecognized hp
      (show "SYNC_REQ" ∈ ["SYNC_REQ", "JOIN", "LEAVE"] by simp)
    have h2 := actionIs_false_of_unrecognized hp
      (show "JOIN" ∈ ["SYNC_REQ", "JOIN", "LEAVE"] by simp)
    have h3 := actionIs_false_of_unrecognized hp
      (show "LEAVE" ∈ ["SYNC_REQ", "JOIN", "LEAVE"] by simp)
    simp [add_message, h1, h2, h3]
  · intro ho
    have h1 := actionIs_false_of_unrecognized ho
      (show "TIME_REQ" ∈ ["TIME_REQ", "ASSIGN", "SYNC_RESPONSE"] by simp)
    have h2 := actionIs_false_of_unrecognized ho
      (show "ASSIGN" ∈ ["TIME_REQ", "ASSIGN", "SYNC_RESPONSE"] by simp)
    have h3 := actionIs_false_of_unrecognized ho
      (show "SYNC_RESPONSE" ∈ ["TIME_REQ", "ASSIGN", "SYNC_RESPONSE"] by simp)
    simp [add_received_message, h1, h2, h3]

/-- Witness for the amended C8: malformed text and the object
`{"value": 1}` (no `action`) are both dropped with no effect by both
handlers. -/
theorem malformed_payload_no_effect_witness :
    add_message (initProducer "ABCDE") "ABCDE/alice" .malformed =
      ⟨initProducer "ABCDE", [], none⟩ ∧
    add_received_message ⟨some "ABCDE", some "bob"⟩ (Except.ok 0)
        .malformed = ⟨[], [], none⟩ ∧
    add_message (initProducer "ABCDE") "ABCDE/alice"
        (.valid (.jobj [("value", JVal.jnum 1)])) =
      ⟨initProducer "ABCDE", [], none⟩ ∧
    add_received_message ⟨some "ABCDE", some "bob"⟩ (Except.ok 0)
        (.valid (.jobj [("value", JVal.jnum 1)])) = ⟨[], [], none⟩ := by
  obtain ⟨h1, h2, h3, h4⟩ := malformed_payload_no_effect
    (initProducer "ABCDE") ⟨some "ABCDE", some "bob"⟩ "ABCDE/alice"
    (Except.ok 0) [("value", JVal.jnum 1)]
  exact ⟨h1, h2, h3 (by rfl), h4 (by rfl)⟩

theorem char_toUpper_alnum : ∀ n : Nat, n < 128 →
    Char.isAlphanum (Char.toUpper (Char.ofNat n)) =
      isUpperAlnum (Char.toUpper (Char.ofNat n)) := by decide

theorem mem_pyStripL {c : Char} {l : List Char} (h : c ∈ pyStripL l) :
    c ∈ l := by
  unfold pyStripL at h
  rw [List.mem_reverse] at h
  have h1 := (List.dropWhile_sublist pyIsSpace).subset h
  rw [List.mem_reverse] at h1
  exact (List.dropWhile_sublist pyIsSpace).subset h1

/-- C9: the observer's room-id validation accepts exactly the inputs whose
trimmed, uppercased form matches `^[A-Z0-9]{5}$` (shown for ASCII inputs,
the domain on which the embedding of `str.isalnum`/`str.upper` is exact);
concretely, joining with `"abcde"` is accepted and normalized to `"ABCDE"`
(session set, subscribe and `JOIN` publish to `ABCDE/alice`), while
`"abcd"` and `"abcdef"` are rejected with no session change and no network
action. -/
theorem room_id_validation :
    (∀ s : String, (∀ c ∈ s.data, c.toNat < 128) →
      (validate_room_id s = true ↔
        ((pyUpper (pyStrip s)).length = 5 ∧
          ∀ c ∈ (pyUpper (pyStrip s)).data,
            ('A' ≤ c ∧ c ≤ 'Z') ∨ ('0' ≤ c ∧ c ≤ '9')))) ∧
    on_join_clicked ⟨none, none⟩ "abcde" "alice" =
      ⟨⟨some "ABCDE", some "alice"⟩, ["ABCDE" ++ "/" ++ "alice"],
        [("ABCDE" ++ "/" ++ "alice", OutMsg.join)]⟩ ∧
    on_join_clicked ⟨none, none⟩ "abcd" "alice" = ⟨⟨none, none⟩, [], []⟩ ∧
    on_join_clicked ⟨none, none⟩ "abcdef" "alice" = ⟨⟨none, none⟩, [], []⟩ := by
  refine ⟨?_, by decide, by decide, by decide⟩
  intro s hascii
  have hdata : (pyUpper (pyStrip s)).data =
      (pyStripL s.data).map Char.toUpper := rfl
  have hlen : (pyUpper (pyStrip s)).length =
      ((pyStripL s.data).map Char.toUpper).length := rfl
  have hchar : ∀ c ∈ (pyStripL s.data).map Char.toUpper,
      (Char.isAlphanum c = true ↔
        (('A' ≤ c ∧ c ≤ 'Z') ∨ ('0' ≤ c ∧ c ≤ '9'))) := by
    intro c hc
    obtain ⟨c₀, hc₀, rfl⟩ := List.mem_map.mp hc
    have hn : c₀.toNat < 128 := hascii c₀ (mem_pyStripL hc₀)
    have heq := char_toUpper_alnum c₀.toNat hn
    rw [Char.ofNat_toNat] at heq
    rw [heq]
    simp [isUpperAlnum]
  by_cases hnil : s.data = []
  · rw [validate_room_id, if_pos hnil]
    simp [hlen, hdata, hnil, pyStripL]
  · rw [validate_room_id, if_neg hnil]
    simp only [hlen, hdata, pyIsAlnumL, Bool.and_eq_true, beq_iff_eq,
      Bool.not_eq_true', List.all_eq_true]
    constructor
    · rintro ⟨h5, _, hall⟩
      exact ⟨h5, fun c hc => (hchar c hc).mp (hall c hc)⟩
    · rintro ⟨h5, hall⟩
      refine ⟨h5, ?_, fun c hc => (hchar c hc).mpr (hall c hc)⟩
      rcases hr : (pyStripL s.data).map Char.toUpper with _ | ⟨a, l⟩
      · rw [hr] at h5
        simp at h5
      · simp [hr]

/-- Witness for C9's general clause at the input `"abcde"`. -/
theorem room_id_validation_witness :
    validate_room_id "abcde" = true ↔
      ((pyUpper (pyStrip "abcde")).length = 5 ∧
        ∀ c ∈ (pyUpper (pyStrip "abcde")).data,
          ('A' ≤ c ∧ c ≤ 'Z') ∨ ('0' ≤ c ∧ c ≤ '9')) :=
  room_id_validation.1 "abcde" (by decide)
